import Mathlib

/-!
# Verification of the Game of Life simulator (src/main.c)

Shallow embedding of the grid engine, event handler, ghost cursor and
startup configuration of the C program, together with theorems checking
the natural-language specification against it.

The grid is the C program's flat `bool` array: a `List Bool` of length
`width * height`, indexed by `x * height + y` exactly as `get_cell` /
`set_cell` do in the source.  Machine integers are modelled by `Nat`
(all coordinates and sizes manipulated by the program are non-negative);
the parsed numeric values of command-line options are modelled by `Int`
(`atoi`) and `Rat` (`atof`).
-/

namespace GameOfLife

/-- Mirrors `struct config` from src/main.c: width, height, display scale,
inter-frame delay and the three RGBA colors. -/
structure Config where
  width : Nat
  height : Nat
  scale : Rat
  delay : Int
  bg_color : Nat
  fg_color : Nat
  cp_color : Nat
deriving DecidableEq, Repr

/-- The default configuration `C` from src/main.c. -/
def defaultConfig : Config :=
  { width := 500, height := 300, scale := 3, delay := 20,
    bg_color := 0x000000FF, fg_color := 0xFFFFFFFF, cp_color := 0x444444FF }

/-- `get_cell` from src/main.c: `arr[x * C.height + y]`.  Reading a flat
index outside the buffer is undefined behaviour in C; the embedding
returns `false` there (the theorems below show in-range calls never do
this). -/
def get_cell (h : Nat) (arr : List Bool) (x y : Nat) : Bool :=
  arr.getD (x * h + y) false

/-- `set_cell` from src/main.c: `arr[x * C.height + y] = val`. -/
def set_cell (h : Nat) (arr : List Bool) (x y : Nat) (v : Bool) : List Bool :=
  arr.set (x * h + y) v

/-- The neighbor counter of `is_alive` from src/main.c: eight guarded
increments over the boundary-clipped Moore neighborhood, in source
order (left, right, top, bottom, top-left, top-right, bottom-left,
bottom-right). -/
def neighbor_count (w h : Nat) (g : List Bool) (x y : Nat) : Nat :=
  (if 0 < x ∧ get_cell h g (x - 1) y = true then 1 else 0) +
  (if x < w - 1 ∧ get_cell h g (x + 1) y = true then 1 else 0) +
  (if 0 < y ∧ get_cell h g x (y - 1) = true then 1 else 0) +
  (if y < h - 1 ∧ get_cell h g x (y + 1) = true then 1 else 0) +
  (if 0 < x ∧ 0 < y ∧ get_cell h g (x - 1) (y - 1) = true then 1 else 0) +
  (if x < w - 1 ∧ 0 < y ∧ get_cell h g (x + 1) (y - 1) = true then 1 else 0) +
  (if 0 < x ∧ y < h - 1 ∧ get_cell h g (x - 1) (y + 1) = true then 1 else 0) +
  (if x < w - 1 ∧ y < h - 1 ∧ get_cell h g (x + 1) (y + 1) = true then 1 else 0)

/-- `is_alive` from src/main.c: counts neighbors, then applies the three
guarded rules and the final `return false`. -/
def is_alive (w h : Nat) (g : List Bool) (x y : Nat) : Bool :=
  let n := neighbor_count w h g x y
  if get_cell h g x y = true ∧ (n < 2 ∨ n > 3) then false
  else if get_cell h g x y = true ∧ (n = 2 ∨ n = 3) then true
  else if get_cell h g x y = false ∧ n = 3 then true
  else false

/-- `clear_grid` from src/main.c: `memset(grid, 0, grid_size)` — every
byte of the `width * height` buffer becomes zero (dead). -/
def clear_grid (w h : Nat) : List Bool :=
  List.replicate (w * h) false

/-- `fill_grid` from src/main.c, with `rand() % 2` modelled by an
explicit random source `rnd`: sets every cell of the grid. -/
def fill_grid (w h : Nat) (g : List Bool) (rnd : Nat → Nat → Bool) : List Bool :=
  (List.range w).foldl
    (fun b i => (List.range h).foldl (fun b2 j => set_cell h b2 i j (rnd i j)) b) g

/-- `update_grid` from src/main.c: writes `is_alive(i, j)` (read from the
current `grid`) into every cell of `next_gen`, then `memcpy` makes that
buffer the new grid.  The returned list is the common new contents of
both buffers. -/
def update_grid (w h : Nat) (grid ng : List Bool) : List Bool :=
  (List.range w).foldl
    (fun b i => (List.range h).foldl
      (fun b2 j => set_cell h b2 i j (is_alive w h grid i j)) b) ng

/-! ## Basic facts about the flat index and cell access -/

theorem idx_lt {w h x y : Nat} (hx : x < w) (hy : y < h) : x * h + y < w * h :=
  calc x * h + y < x * h + h := by omega
  _ = (x + 1) * h := by ring
  _ ≤ w * h := Nat.mul_le_mul_right h hx

theorem idx_div {h x y : Nat} (hy : y < h) : (x * h + y) / h = x := by
  rw [Nat.mul_comm, Nat.mul_add_div (by omega), Nat.div_eq_of_lt hy]
  omega

theorem idx_mod {h x y : Nat} (hy : y < h) : (x * h + y) % h = y := by
  rw [Nat.mul_comm, Nat.mul_add_mod, Nat.mod_eq_of_lt hy]

theorem idx_inj {h x y x' y' : Nat} (hy : y < h) (hy' : y' < h)
    (he : x * h + y = x' * h + y') : x = x' ∧ y = y' := by
  have h1 : x = x' := by
    have e1 := idx_div (x := x) hy
    rw [he] at e1
    have e2 := idx_div (x := x') hy'
    omega
  have h2 : y = y' := by
    have e1 := idx_mod (x := x) hy
    rw [he] at e1
    have e2 := idx_mod (x := x') hy'
    omega
  exact ⟨h1, h2⟩

theorem getD_set_self {a : List Bool} {i : Nat} {v : Bool} (hi : i < a.length) :
    (a.set i v).getD i false = v := by
  rw [List.getD_eq_getElem _ _ (by simpa using hi)]
  exact List.getElem_set_self _

theorem getD_set_ne {a : List Bool} {i j : Nat} {v : Bool} (hij : i ≠ j) :
    (a.set i v).getD j false = a.getD j false := by
  by_cases hj : j < a.length
  · rw [List.getD_eq_getElem _ _ (by simpa using hj), List.getD_eq_getElem _ _ hj]
    exact List.getElem_set_ne (by simpa using hij) _
  · rw [List.getD_eq_default _ _ (by simpa using Nat.le_of_not_lt hj),
        List.getD_eq_default _ _ (Nat.le_of_not_lt hj)]

theorem length_set_cell (h : Nat) (a : List Bool) (x y : Nat) (v : Bool) :
    (set_cell h a x y v).length = a.length := by
  simp [set_cell]

theorem get_set_cell_self {h : Nat} {a : List Bool} {x y : Nat} {v : Bool}
    (hi : x * h + y < a.length) :
    get_cell h (set_cell h a x y v) x y = v :=
  getD_set_self hi

theorem get_set_cell_ne {h : Nat} {a : List Bool} {x y x' y' : Nat} {v : Bool}
    (hne : x * h + y ≠ x' * h + y') :
    get_cell h (set_cell h a x y v) x' y' = get_cell h a x' y' :=
  getD_set_ne hne

/-! ## The double-buffered generation step writes every cell exactly once -/

theorem row_foldl_length (h i n : Nat) (f : Nat → Bool) (b : List Bool) :
    ((List.range n).foldl (fun b2 j => set_cell h b2 i j (f j)) b).length = b.length := by
  induction n with
  | zero => rfl
  | succ n ih =>
      rw [List.range_succ, List.foldl_append]
      simp only [List.foldl_cons, List.foldl_nil, set_cell, List.length_set]
      simpa [set_cell] using ih

theorem row_foldl_getD_hit (h i n : Nat) (f : Nat → Bool) (b : List Bool)
    (j0 : Nat) (hj0 : j0 < n) (hlen : i * h + j0 < b.length) :
    ((List.range n).foldl (fun b2 j => set_cell h b2 i j (f j)) b).getD (i * h + j0) false
      = f j0 := by
  induction n with
  | zero => omega
  | succ n ih =>
      rw [List.range_succ, List.foldl_append]
      simp only [List.foldl_cons, List.foldl_nil]
      rcases Nat.lt_or_ge j0 n with hlt | hge
      · have hne : i * h + n ≠ i * h + j0 := by omega
        rw [show set_cell h ((List.range n).foldl (fun b2 j => set_cell h b2 i j (f j)) b)
              i n (f n) = ((List.range n).foldl (fun b2 j => set_cell h b2 i j (f j)) b).set
              (i * h + n) (f n) from rfl]
        rw [getD_set_ne hne]
        exact ih hlt
      · have hj0n : j0 = n := by omega
        subst hj0n
        exact getD_set_self (by rw [row_foldl_length]; exact hlen)

theorem row_foldl_getD_miss (h i n : Nat) (f : Nat → Bool) (b : List Bool)
    (idx : Nat) (hidx : ∀ j, j < n → idx ≠ i * h + j) :
    ((List.range n).foldl (fun b2 j => set_cell h b2 i j (f j)) b).getD idx false
      = b.getD idx false := by
  induction n with
  | zero => rfl
  | succ n ih =>
      rw [List.range_succ, List.foldl_append]
      simp only [List.foldl_cons, List.foldl_nil]
      rw [show set_cell h ((List.range n).foldl (fun b2 j => set_cell h b2 i j (f j)) b)
            i n (f n) = ((List.range n).foldl (fun b2 j => set_cell h b2 i j (f j)) b).set
            (i * h + n) (f n) from rfl]
      rw [getD_set_ne (fun he => hidx n (by omega) he.symm)]
      exact ih (fun j hj => hidx j (by omega))

theorem grid_foldl_length (h m : Nat) (f : Nat → Nat → Bool) (ng : List Bool) :
    ((List.range m).foldl
      (fun b i => (List.range h).foldl (fun b2 j => set_cell h b2 i j (f i j)) b) ng).length
      = ng.length := by
  induction m with
  | zero => rfl
  | succ m ih =>
      rw [List.range_succ, List.foldl_append]
      simp only [List.foldl_cons, List.foldl_nil]
      rw [row_foldl_length]
      exact ih

theorem grid_foldl_getD (w h m : Nat) (hm : m ≤ w) (f : Nat → Nat → Bool)
    (ng : List Bool) (hng : ng.length = w * h) (x y : Nat) (hx : x < w) (hy : y < h) :
    ((List.range m).foldl
      (fun b i => (List.range h).foldl (fun b2 j => set_cell h b2 i j (f i j)) b) ng).getD
      (x * h + y) false
      = if x < m then f x y else ng.getD (x * h + y) false := by
  induction m with
  | zero => simp
  | succ m ih =>
      rw [List.range_succ, List.foldl_append]
      simp only [List.foldl_cons, List.foldl_nil]
      rcases Nat.lt_trichotomy x m with hlt | heq | hgt
      · rw [row_foldl_getD_miss _ _ _ _ _ _
          (fun j hj he => by
            have := (idx_inj hy hj he).1
            omega)]
        rw [ih (by omega)]
        rw [if_pos hlt, if_pos (by omega : x < m + 1)]
      · subst heq
        rw [row_foldl_getD_hit _ _ _ _ _ y hy
          (by rw [grid_foldl_length]; rw [hng]; exact idx_lt hx hy)]
        rw [if_pos (Nat.lt_succ_self x)]
      · rw [row_foldl_getD_miss _ _ _ _ _ _
          (fun j hj he => by
            have := (idx_inj hy hj he).1
            omega)]
        rw [ih (by omega)]
        have h1 : ¬ x < m := by omega
        have h2 : ¬ x < m + 1 := by omega
        simp [h1, h2]

theorem length_update_grid (w h : Nat) (grid ng : List Bool) :
    (update_grid w h grid ng).length = ng.length :=
  grid_foldl_length h w _ ng

/-- Pointwise value of the generation step: every in-range cell of the new
grid is `is_alive` evaluated on the old grid. -/
theorem get_update_grid (w h : Nat) (grid ng : List Bool) (hng : ng.length = w * h)
    (x y : Nat) (hx : x < w) (hy : y < h) :
    get_cell h (update_grid w h grid ng) x y = is_alive w h grid x y := by
  unfold update_grid get_cell
  rw [grid_foldl_getD w h w (Nat.le_refl w) _ ng hng x y hx hy]
  simp [hx]

/-! ## Spec-side description of the transition rule (for refinement claims) -/

/-- Modelled from the spec's wording of the rule in section 4.1: an alive
cell with fewer than 2 or more than 3 alive neighbors dies, an alive cell
with 2 or 3 alive neighbors stays alive, a dead cell with exactly 3 alive
neighbors becomes alive, every other dead cell stays dead. -/
def life_rule (alive : Bool) (n : Nat) : Bool :=
  if alive = true ∧ (n < 2 ∨ n > 3) then false
  else if alive = true ∧ (n = 2 ∨ n = 3) then true
  else if alive = false ∧ n = 3 then true
  else false

/-- Modelled from the spec's wording: one candidate neighbor of `(x, y)`
at offset `(dx, dy)` contributes 1 to the Moore-neighborhood count iff it
lies inside `[0,w) × [0,h)` (clipping at the boundary, no wraparound) and
is alive. -/
def moore_term (w h : Nat) (g : List Bool) (x y : Nat) (dx dy : Int) : Nat :=
  if 0 ≤ (x : Int) + dx ∧ (x : Int) + dx < (w : Int) ∧
     0 ≤ (y : Int) + dy ∧ (y : Int) + dy < (h : Int) ∧
     get_cell h g ((x : Int) + dx).toNat ((y : Int) + dy).toNat = true
  then 1 else 0

/-- Modelled from the spec's wording: the alive-neighbor count of `(x, y)`
over the Moore neighborhood (the 8 horizontally, vertically and diagonally
adjacent cells) clipped at the grid boundary. -/
def count_moore (w h : Nat) (g : List Bool) (x y : Nat) : Nat :=
  moore_term w h g x y (-1) 0 + moore_term w h g x y 1 0 +
  moore_term w h g x y 0 (-1) + moore_term w h g x y 0 1 +
  moore_term w h g x y (-1) (-1) + moore_term w h g x y 1 (-1) +
  moore_term w h g x y (-1) 1 + moore_term w h g x y 1 1

theorem toNat_add_neg_one (x : Nat) : ((x : Int) + (-1)).toNat = x - 1 := by omega

theorem toNat_add_one (x : Nat) : ((x : Int) + 1).toNat = x + 1 := by omega

theorem toNat_add_zero (x : Nat) : ((x : Int) + 0).toNat = x := by omega

/-- The neighbor counter of `is_alive` computes exactly the spec's clipped
Moore-neighborhood count at every in-range coordinate. -/
theorem neighbor_count_eq_count_moore (w h : Nat) (g : List Bool) (x y : Nat)
    (hx : x < w) (hy : y < h) :
    neighbor_count w h g x y = count_moore w h g x y := by
  have e1 : moore_term w h g x y (-1) 0
      = (if 0 < x ∧ get_cell h g (x - 1) y = true then 1 else 0) := by
    unfold moore_term
    rw [toNat_add_neg_one, toNat_add_zero]
    refine if_congr ⟨fun hh => ⟨by omega, hh.2.2.2.2⟩, fun hh => ⟨by omega, by omega, by omega, by omega, hh.2⟩⟩ rfl rfl
  have e2 : moore_term w h g x y 1 0
      = (if x < w - 1 ∧ get_cell h g (x + 1) y = true then 1 else 0) := by
    unfold moore_term
    rw [toNat_add_one, toNat_add_zero]
    refine if_congr ⟨fun hh => ⟨by omega, hh.2.2.2.2⟩, fun hh => ⟨by omega, by omega, by omega, by omega, hh.2⟩⟩ rfl rfl
  have e3 : moore_term w h g x y 0 (-1)
      = (if 0 < y ∧ get_cell h g x (y - 1) = true then 1 else 0) := by
    unfold moore_term
    rw [toNat_add_neg_one, toNat_add_zero]
    refine if_congr ⟨fun hh => ⟨by omega, hh.2.2.2.2⟩, fun hh => ⟨by omega, by omega, by omega, by omega, hh.2⟩⟩ rfl rfl
  have e4 : moore_term w h g x y 0 1
      = (if y < h - 1 ∧ get_cell h g x (y + 1) = true then 1 else 0) := by
    unfold moore_term
    rw [toNat_add_one, toNat_add_zero]
    refine if_congr ⟨fun hh => ⟨by omega, hh.2.2.2.2⟩, fun hh => ⟨by omega, by omega, by omega, by omega, hh.2⟩⟩ rfl rfl
  have e5 : moore_term w h g x y (-1) (-1)
      = (if 0 < x ∧ 0 < y ∧ get_cell h g (x - 1) (y - 1) = true then 1 else 0) := by
    unfold moore_term
    rw [toNat_add_neg_one, toNat_add_neg_one]
    refine if_congr ⟨fun hh => ⟨by omega, by omega, hh.2.2.2.2⟩, fun hh => ⟨by omega, by omega, by omega, by omega, hh.2.2⟩⟩ rfl rfl
  have e6 : moore_term w h g x y 1 (-1)
      = (if x < w - 1 ∧ 0 < y ∧ get_cell h g (x + 1) (y - 1) = true then 1 else 0) := by
    unfold moore_term
    rw [toNat_add_one, toNat_add_neg_one]
    refine if_congr ⟨fun hh => ⟨by omega, by omega, hh.2.2.2.2⟩, fun hh => ⟨by omega, by omega, by omega, by omega, hh.2.2⟩⟩ rfl rfl
  have e7 : moore_term w h g x y (-1) 1
      = (if 0 < x ∧ y < h - 1 ∧ get_cell h g (x - 1) (y + 1) = true then 1 else 0) := by
    unfold moore_term
    rw [toNat_add_neg_one, toNat_add_one]
    refine if_congr ⟨fun hh => ⟨by omega, by omega, hh.2.2.2.2⟩, fun hh => ⟨by omega, by omega, by omega, by omega, hh.2.2⟩⟩ rfl rfl
  have e8 : moore_term w h g x y 1 1
      = (if x < w - 1 ∧ y < h - 1 ∧ get_cell h g (x + 1) (y + 1) = true then 1 else 0) := by
    unfold moore_term
    rw [toNat_add_one, toNat_add_one]
    refine if_congr ⟨fun hh => ⟨by omega, by omega, hh.2.2.2.2⟩, fun hh => ⟨by omega, by omega, by omega, by omega, hh.2.2⟩⟩ rfl rfl
  unfold count_moore neighbor_count
  rw [e1, e2, e3, e4, e5, e6, e7, e8]

/-- `is_alive` is the spec's rule applied to the neighbor count. -/
theorem is_alive_eq_life_rule (w h : Nat) (g : List Bool) (x y : Nat) :
    is_alive w h g x y = life_rule (get_cell h g x y) (neighbor_count w h g x y) :=
  rfl

/-! ## Claim theorems about the grid engine -/

/-- C1: for every grid state and every in-range coordinate `(x, y)`, one
step of the simulation (`update_grid`) sets the next value of `(x, y)` to
the life rule applied to the alive-neighbor count over the Moore
neighborhood clipped at the grid boundary; all next-generation values are
computed from the unmodified current generation `grid` (the right-hand
side reads only `grid`, never the buffer being written). -/
theorem update_grid_step_rule (w h : Nat) (grid ng : List Bool)
    (hg : grid.length = w * h) (hng : ng.length = w * h)
    (x y : Nat) (hx : x < w) (hy : y < h) :
    get_cell h (update_grid w h grid ng) x y
      = life_rule (get_cell h grid x y) (count_moore w h grid x y) := by
  rw [get_update_grid w h grid ng hng x y hx hy, is_alive_eq_life_rule,
      neighbor_count_eq_count_moore w h grid x y hx hy]

theorem update_grid_step_rule_witness :
    ([true, true, false, false] : List Bool).length = 2 * 2 ∧
    get_cell 2 (update_grid 2 2 [true, true, false, false] [false, false, false, false]) 0 0
      = life_rule (get_cell 2 [true, true, false, false] 0 0)
          (count_moore 2 2 [true, true, false, false] 0 0) :=
  ⟨by decide,
   update_grid_step_rule 2 2 [true, true, false, false] [false, false, false, false]
     (by decide) (by decide) 0 0 (by decide) (by decide)⟩

/-- The 5×3 grid of claim C3 with exactly `(1,1)`, `(2,1)`, `(3,1)` alive,
laid out flat with index `x * 3 + y`. -/
def blinker_grid : List Bool :=
  [false, false, false,
   false, true, false,
   false, true, false,
   false, true, false,
   false, false, false]

/-- C3: on a 5×3 grid in which exactly `(1,1)`, `(2,1)`, `(3,1)` are
alive, one application of `update_grid` yields a grid in which exactly
`(2,0)`, `(2,1)`, `(2,2)` are alive (in particular the original three
cells `(1,1)` and `(3,1)` are dead, and `(2,1)` stays alive). -/
theorem blinker_step :
    ∀ x, x < 5 → ∀ y, y < 3 →
      (get_cell 3 (update_grid 5 3 blinker_grid (List.replicate 15 false)) x y = true
        ↔ (x = 2 ∧ y = 0) ∨ (x = 2 ∧ y = 1) ∨ (x = 2 ∧ y = 2)) := by
  decide

theorem blinker_step_witness :
    1 < 5 ∧ 1 < 3 ∧
      (get_cell 3 (update_grid 5 3 blinker_grid (List.replicate 15 false)) 1 1 = true
        ↔ (1 = 2 ∧ 1 = 0) ∨ (1 = 2 ∧ 1 = 1) ∨ (1 = 2 ∧ 1 = 2)) :=
  ⟨by decide, by decide, blinker_step 1 (by decide) 1 (by decide)⟩

/-- C8: after `clear_grid`, `get_cell` returns `false` at every in-range
coordinate. -/
theorem clear_grid_get_false (w h x y : Nat) (hx : x < w) (hy : y < h) :
    get_cell h (clear_grid w h) x y = false := by
  unfold clear_grid get_cell
  rw [List.getD_eq_getElem _ _ (by simpa using idx_lt hx hy)]
  simp

theorem clear_grid_get_false_witness :
    1 < 2 ∧ 2 < 3 ∧ get_cell 3 (clear_grid 2 3) 1 2 = false :=
  ⟨by decide, by decide, clear_grid_get_false 2 3 1 2 (by decide) (by decide)⟩

/-- C10: on a buffer of length `w * h`, `set_cell` followed by `get_cell`
at the same in-range coordinate returns the written value, and reading any
other in-range coordinate is unaffected (the flat index `x * h + y` is
injective on in-range coordinates, so writes never alias). -/
theorem set_cell_get_cell_frame (w h : Nat) (arr : List Bool) (x y x' y' : Nat) (v : Bool)
    (hlen : arr.length = w * h) (hx : x < w) (hy : y < h) (hx' : x' < w) (hy' : y' < h) :
    get_cell h (set_cell h arr x y v) x y = v ∧
    ((x', y') ≠ (x, y) → get_cell h (set_cell h arr x y v) x' y' = get_cell h arr x' y') := by
  constructor
  · exact get_set_cell_self (by rw [hlen]; exact idx_lt hx hy)
  · intro hne
    refine get_set_cell_ne fun he => ?_
    obtain ⟨hxx, hyy⟩ := idx_inj hy hy' he
    exact hne (by rw [hxx, hyy])

theorem set_cell_get_cell_frame_witness :
    ([false, false, false, false, false, false] : List Bool).length = 2 * 3 ∧
    (get_cell 3 (set_cell 3 [false, false, false, false, false, false] 1 2 true) 1 2 = true ∧
      ((0, 1) ≠ ((1 : Nat), (2 : Nat)) →
        get_cell 3 (set_cell 3 [false, false, false, false, false, false] 1 2 true) 0 1
          = get_cell 3 [false, false, false, false, false, false] 0 1)) :=
  ⟨by decide,
   set_cell_get_cell_frame 2 3 [false, false, false, false, false, false] 1 2 0 1 true
     (by decide) (by decide) (by decide) (by decide) (by decide)⟩

/-! ## The read set of the neighbor counter (claim C2) -/

/-- The list of cells `is_alive`'s neighbor counter reads, one entry per
guarded `get_cell` call of src/main.c lines 128-142, present exactly when
the corresponding guard holds. -/
def neighbor_reads (w h : Nat) (x y : Nat) : List (Nat × Nat) :=
  (if 0 < x then [(x - 1, y)] else []) ++
  (if x < w - 1 then [(x + 1, y)] else []) ++
  (if 0 < y then [(x, y - 1)] else []) ++
  (if y < h - 1 then [(x, y + 1)] else []) ++
  (if 0 < x ∧ 0 < y then [(x - 1, y - 1)] else []) ++
  (if x < w - 1 ∧ 0 < y then [(x + 1, y - 1)] else []) ++
  (if 0 < x ∧ y < h - 1 then [(x - 1, y + 1)] else []) ++
  (if x < w - 1 ∧ y < h - 1 then [(x + 1, y + 1)] else [])

theorem mem_if_singleton {α : Type} (c : Prop) [Decidable c] (a p : α) :
    p ∈ (if c then [a] else []) ↔ c ∧ p = a := by
  split_ifs with hc
  · simp [hc]
  · simp [hc]

theorem length_filter_if_singleton (c : Prop) [Decidable c] (q : Nat × Nat → Bool)
    (a : Nat × Nat) :
    ((if c then [a] else []).filter q).length = if c ∧ q a = true then 1 else 0 := by
  by_cases hc : c
  · rw [if_pos hc]
    by_cases hq : q a = true
    · rw [if_pos ⟨hc, hq⟩]
      simp [List.filter, hq]
    · rw [if_neg (fun hh => hq hh.2)]
      simp [List.filter, Bool.eq_false_iff.mpr hq]
  · rw [if_neg hc, if_neg (fun hh => hc hh.1)]
    simp

/-- C2: the neighbor count computed by `is_alive` is exactly the number of
alive cells among the cells it reads (`neighbor_reads`), and every cell it
reads lies in `[0,w) × [0,h)` — its flat index is below `w * h` — and
is a true Moore neighbor of `(x, y)` (both coordinates within distance 1
in genuine integer arithmetic, never the cell itself), so near an edge
the count never wraps to the opposite edge. -/
theorem neighbor_reads_safe (w h : Nat) (g : List Bool) (x y : Nat)
    (hx : x < w) (hy : y < h) :
    neighbor_count w h g x y
      = ((neighbor_reads w h x y).filter fun p => get_cell h g p.1 p.2).length ∧
    ∀ p ∈ neighbor_reads w h x y,
      p.1 < w ∧ p.2 < h ∧ p.1 * h + p.2 < w * h ∧
      -1 ≤ (p.1 : Int) - (x : Int) ∧ (p.1 : Int) - (x : Int) ≤ 1 ∧
      -1 ≤ (p.2 : Int) - (y : Int) ∧ (p.2 : Int) - (y : Int) ≤ 1 ∧
      ¬(p.1 = x ∧ p.2 = y) := by
  constructor
  · unfold neighbor_count neighbor_reads
    rw [List.filter_append, List.filter_append, List.filter_append, List.filter_append,
        List.filter_append, List.filter_append, List.filter_append]
    rw [List.length_append, List.length_append, List.length_append, List.length_append,
        List.length_append, List.length_append, List.length_append]
    rw [length_filter_if_singleton, length_filter_if_singleton, length_filter_if_singleton,
        length_filter_if_singleton, length_filter_if_singleton, length_filter_if_singleton,
        length_filter_if_singleton, length_filter_if_singleton]
    simp only [and_assoc]
  · intro p hp
    unfold neighbor_reads at hp
    simp only [List.mem_append, mem_if_singleton] at hp
    rcases hp with ((((((⟨hc, rfl⟩ | ⟨hc, rfl⟩) | ⟨hc, rfl⟩) | ⟨hc, rfl⟩) | ⟨hc, rfl⟩) |
        ⟨hc, rfl⟩) | ⟨hc, rfl⟩) | ⟨hc, rfl⟩ <;>
      exact ⟨by omega, by omega, idx_lt (by omega) (by omega), by omega, by omega,
        by omega, by omega, by omega⟩

theorem neighbor_reads_safe_witness :
    (0 : Nat) < 3 ∧
    (neighbor_count 3 3 (List.replicate 9 true) 0 0
        = ((neighbor_reads 3 3 0 0).filter
            fun p => get_cell 3 (List.replicate 9 true) p.1 p.2).length ∧
      ∀ p ∈ neighbor_reads 3 3 0 0,
        p.1 < 3 ∧ p.2 < 3 ∧ p.1 * 3 + p.2 < 3 * 3 ∧
        -1 ≤ (p.1 : Int) - (0 : Int) ∧ (p.1 : Int) - (0 : Int) ≤ 1 ∧
        -1 ≤ (p.2 : Int) - (0 : Int) ∧ (p.2 : Int) - (0 : Int) ≤ 1 ∧
        ¬(p.1 = 0 ∧ p.2 = 0)) :=
  ⟨by decide, neighbor_reads_safe 3 3 (List.replicate 9 true) 0 0 (by decide) (by decide)⟩

/-! ## A 2×2 block is a fixed point of the step (claim C4) -/

theorem ite_and_one_zero (P Q : Prop) [Decidable P] [Decidable Q] :
    (if P ∧ Q then (1:Nat) else 0) = min (if P then 1 else 0) (if Q then 1 else 0) := by
  by_cases hp : P <;> by_cases hq : Q <;> simp [hp, hq]

theorem ite_one_zero_cases (P : Prop) [Decidable P] :
    ((if P then (1:Nat) else 0) = 1 ∧ P) ∨ ((if P then (1:Nat) else 0) = 0 ∧ ¬P) := by
  by_cases hp : P <;> simp [hp]

set_option maxHeartbeats 2000000 in
theorem block_neighbor_count (w h a b : Nat) (g : List Bool)
    (ha : a + 1 < w) (hb : b + 1 < h)
    (Hg : ∀ i, i < w → ∀ j, j < h →
      (get_cell h g i j = true ↔ (i = a ∨ i = a + 1) ∧ (j = b ∨ j = b + 1)))
    (i j : Nat) (hi : i < w) (hj : j < h) :
    (((i = a ∨ i = a + 1) ∧ (j = b ∨ j = b + 1)) → neighbor_count w h g i j = 3) ∧
    (¬((i = a ∨ i = a + 1) ∧ (j = b ∨ j = b + 1)) → neighbor_count w h g i j ≤ 2) := by
  have q1 : (0 < i ∧ get_cell h g (i - 1) j = true)
      ↔ ((i = a + 1 ∨ i = a + 2) ∧ (j = b ∨ j = b + 1)) := by
    rw [Hg (i - 1) (by omega) j hj]; omega
  have q2 : (i < w - 1 ∧ get_cell h g (i + 1) j = true)
      ↔ ((i + 1 = a ∨ i = a) ∧ (j = b ∨ j = b + 1)) := by
    by_cases hc : i < w - 1
    · rw [Hg (i + 1) (by omega) j hj]; omega
    · constructor
      · intro hh; exact absurd hh.1 hc
      · intro hh; exact absurd hh.1 (by omega)
  have q3 : (0 < j ∧ get_cell h g i (j - 1) = true)
      ↔ ((i = a ∨ i = a + 1) ∧ (j = b + 1 ∨ j = b + 2)) := by
    rw [Hg i hi (j - 1) (by omega)]; omega
  have q4 : (j < h - 1 ∧ get_cell h g i (j + 1) = true)
      ↔ ((i = a ∨ i = a + 1) ∧ (j + 1 = b ∨ j = b)) := by
    by_cases hc : j < h - 1
    · rw [Hg i hi (j + 1) (by omega)]; omega
    · constructor
      · intro hh; exact absurd hh.1 hc
      · intro hh; exact absurd hh.2 (by omega)
  have q5 : (0 < i ∧ 0 < j ∧ get_cell h g (i - 1) (j - 1) = true)
      ↔ ((i = a + 1 ∨ i = a + 2) ∧ (j = b + 1 ∨ j = b + 2)) := by
    rw [Hg (i - 1) (by omega) (j - 1) (by omega)]; omega
  have q6 : (i < w - 1 ∧ 0 < j ∧ get_cell h g (i + 1) (j - 1) = true)
      ↔ ((i + 1 = a ∨ i = a) ∧ (j = b + 1 ∨ j = b + 2)) := by
    by_cases hc : i < w - 1
    · rw [Hg (i + 1) (by omega) (j - 1) (by omega)]; omega
    · constructor
      · intro hh; exact absurd hh.1 hc
      · intro hh; exact absurd hh.1 (by omega)
  have q7 : (0 < i ∧ j < h - 1 ∧ get_cell h g (i - 1) (j + 1) = true)
      ↔ ((i = a + 1 ∨ i = a + 2) ∧ (j + 1 = b ∨ j = b)) := by
    by_cases hc : j < h - 1
    · rw [Hg (i - 1) (by omega) (j + 1) (by omega)]; omega
    · constructor
      · intro hh; exact absurd hh.2.1 hc
      · intro hh; exact absurd hh.2 (by omega)
  have q8 : (i < w - 1 ∧ j < h - 1 ∧ get_cell h g (i + 1) (j + 1) = true)
      ↔ ((i + 1 = a ∨ i = a) ∧ (j + 1 = b ∨ j = b)) := by
    by_cases hc : i < w - 1
    · by_cases hd : j < h - 1
      · rw [Hg (i + 1) (by omega) (j + 1) (by omega)]; omega
      · constructor
        · intro hh; exact absurd hh.2.1 hd
        · intro hh; exact absurd hh.2 (by omega)
    · constructor
      · intro hh; exact absurd hh.1 hc
      · intro hh; exact absurd hh.1 (by omega)
  unfold neighbor_count
  rw [if_congr q1 rfl rfl, if_congr q2 rfl rfl, if_congr q3 rfl rfl, if_congr q4 rfl rfl,
      if_congr q5 rfl rfl, if_congr q6 rfl rfl, if_congr q7 rfl rfl, if_congr q8 rfl rfl]
  simp only [ite_and_one_zero]
  rcases ite_one_zero_cases (i = a + 1 ∨ i = a + 2) with ⟨e1, p1⟩ | ⟨e1, p1⟩ <;>
    rcases ite_one_zero_cases (i + 1 = a ∨ i = a) with ⟨e2, p2⟩ | ⟨e2, p2⟩ <;>
    rcases ite_one_zero_cases (i = a ∨ i = a + 1) with ⟨e3, p3⟩ | ⟨e3, p3⟩ <;>
    rcases ite_one_zero_cases (j = b ∨ j = b + 1) with ⟨e4, p4⟩ | ⟨e4, p4⟩ <;>
    rcases ite_one_zero_cases (j = b + 1 ∨ j = b + 2) with ⟨e5, p5⟩ | ⟨e5, p5⟩ <;>
    rcases ite_one_zero_cases (j + 1 = b ∨ j = b) with ⟨e6, p6⟩ | ⟨e6, p6⟩ <;>
    omega

/-- One step of the simulation leaves a grid whose alive cells are exactly
a fully in-range 2×2 block unchanged. -/
theorem update_grid_block_eq (w h a b : Nat) (g ng : List Bool)
    (hg : g.length = w * h) (hng : ng.length = w * h)
    (ha : a + 1 < w) (hb : b + 1 < h)
    (Hg : ∀ i, i < w → ∀ j, j < h →
      (get_cell h g i j = true ↔ (i = a ∨ i = a + 1) ∧ (j = b ∨ j = b + 1))) :
    update_grid w h g ng = g := by
  apply List.ext_getElem (by rw [length_update_grid, hng, hg])
  intro n h1 h2
  rw [length_update_grid, hng] at h1
  have hpos : 0 < h := by omega
  have hjn : n % h < h := Nat.mod_lt _ hpos
  have hin : n / h < w := (Nat.div_lt_iff_lt_mul hpos).mpr h1
  have key : get_cell h (update_grid w h g ng) (n / h) (n % h)
      = get_cell h g (n / h) (n % h) := by
    rw [get_update_grid w h g ng hng _ _ hin hjn, is_alive_eq_life_rule]
    obtain ⟨h3, hle⟩ := block_neighbor_count w h a b g ha hb Hg (n / h) (n % h) hin hjn
    by_cases hblk : ((n / h = a ∨ n / h = a + 1) ∧ (n % h = b ∨ n % h = b + 1))
    · have hcell : get_cell h g (n / h) (n % h) = true := (Hg _ hin _ hjn).mpr hblk
      rw [hcell, h3 hblk]
      decide
    · have hcell : get_cell h g (n / h) (n % h) = false := by
        cases hq : get_cell h g (n / h) (n % h)
        · rfl
        · exact absurd ((Hg _ hin _ hjn).mp hq) hblk
      rw [hcell]
      have hn2 := hle hblk
      simp only [life_rule]
      rw [if_neg (by simp), if_neg (by simp)]
      rw [if_neg (fun hh => by omega)]
  have hlu : (update_grid w h g ng).length = w * h := by
    rw [length_update_grid]
    exact hng
  unfold get_cell at key
  rw [← List.getD_eq_getElem (update_grid w h g ng) false (by omega),
      ← List.getD_eq_getElem g false (by omega)]
  have hidx : (n / h) * h + n % h = n := by
    have hd := Nat.div_add_mod n h
    rw [Nat.mul_comm]
    omega
  rw [← hidx]
  exact key

/-- C4: for every grid whose alive cells are exactly a 2×2 block lying
fully inside the grid, applying `update_grid` any number of times leaves
the grid unchanged (the block is a fixed point of the step function). -/
theorem block_fixed_point (w h a b : Nat) (g ng : List Bool)
    (hg : g.length = w * h) (hng : ng.length = w * h)
    (ha : a + 1 < w) (hb : b + 1 < h)
    (Hg : ∀ i, i < w → ∀ j, j < h →
      (get_cell h g i j = true ↔ (i = a ∨ i = a + 1) ∧ (j = b ∨ j = b + 1))) :
    ∀ n : Nat, (fun gr => update_grid w h gr ng)^[n] g = g := by
  intro n
  induction n with
  | zero => rfl
  | succ n ih =>
      rw [Function.iterate_succ_apply, update_grid_block_eq w h a b g ng hg hng ha hb Hg, ih]

/-- The 4×4 grid whose alive cells are exactly the 2×2 block at `(1, 1)`,
used to witness claim C4. -/
def block_grid : List Bool :=
  [false, false, false, false,
   false, true, true, false,
   false, true, true, false,
   false, false, false, false]

theorem block_fixed_point_witness :
    block_grid.length = 4 * 4 ∧ 1 + 1 < 4 ∧
    (fun gr => update_grid 4 4 gr (List.replicate 16 false))^[2] block_grid = block_grid :=
  ⟨by decide, by decide,
   block_fixed_point 4 4 1 1 block_grid (List.replicate 16 false)
     (by decide) (by decide) (by decide) (by decide)
     (by decide) 2⟩

/-! ## Run state, events and the interactive loop -/

/-- `state_t` from src/main.c. -/
inductive RunState
  | RUNNING
  | PAUSED
  | QUIT
deriving DecidableEq, Repr

/-- `struct cursor_pixel` from src/main.c (the ghost cursor). -/
structure CursorPixel where
  x : Nat
  y : Nat
  prev_x : Nat
  prev_y : Nat
  prev_state : Bool
  active : Bool
deriving DecidableEq, Repr

/-- The keys the `SDL_KEYDOWN` handler distinguishes (escape, space, c, r;
anything else falls through the inner switch). -/
inductive Key
  | escape
  | space
  | kc
  | kr
  | other
deriving DecidableEq, Repr

/-- Mouse buttons distinguished by the handler (left, right, others). -/
inductive Button
  | left
  | right
  | other
deriving DecidableEq, Repr

/-- Window events distinguished by the handler (mouse focus enter/leave). -/
inductive WindowEv
  | enter
  | leave
  | other
deriving DecidableEq, Repr

/-- The SDL events consumed by `handle_events`, with device pixel
coordinates for mouse events. -/
inductive Event
  | quit
  | keydown (k : Key)
  | mousedown (btn : Button) (px py : Nat)
  | mouseup (btn : Button)
  | mousemotion (px py : Nat)
  | window (we : WindowEv)
deriving DecidableEq, Repr

/-- Render notifications sent to SDL: a single-pixel draw
(`draw_pixel(x, y, color)`) or a full-grid redraw (`update_screen`). -/
inductive Notif
  | pixel (x y : Nat) (color : Nat)
  | fullRedraw
deriving DecidableEq, Repr

/-- Device-to-grid coordinate conversion from src/main.c:
`v / (uint32_t)C.scale` (the positive float scale truncated to an
unsigned integer, then integer division). -/
def scale_div (c : Config) (v : Nat) : Nat :=
  v / (Rat.floor c.scale).toNat

/-- The mutable program state touched by `handle_events` and the main
loop: run state, the two grid buffers, the static draw/erase flags and
the ghost cursor. -/
structure SimState where
  state : RunState
  grid : List Bool
  next_gen : List Bool
  draw_flag : Bool
  erase_flag : Bool
  cp : CursorPixel
deriving DecidableEq, Repr

/-- One iteration of the `switch` in `handle_events` from src/main.c,
for a single polled event: returns the new program state and the render
notifications emitted.  `rnd` models `rand() % 2` for the `r` key. -/
def handle_event (c : Config) (rnd : Nat → Nat → Bool) (s : SimState) (e : Event) :
    SimState × List Notif :=
  match e with
  | .quit => ({ s with state := .QUIT }, [])
  | .keydown k =>
    match k with
    | .escape => ({ s with state := .QUIT }, [])
    | .space => ({ s with state := if s.state = .RUNNING then .PAUSED else .RUNNING }, [])
    | .kc => ({ s with grid := clear_grid c.width c.height }, [.fullRedraw])
    | .kr => ({ s with grid := fill_grid c.width c.height s.grid rnd }, [.fullRedraw])
    | .other => (s, [])
  | .mousedown btn px py =>
    let x := scale_div c px
    let y := scale_div c py
    match btn with
    | .left =>
        ({ s with grid := set_cell c.height s.grid x y true, draw_flag := true },
         [.pixel x y c.fg_color])
    | .right =>
        ({ s with grid := set_cell c.height s.grid x y false, erase_flag := true },
         [.pixel x y c.bg_color])
    | .other => (s, [])
  | .mouseup btn =>
    match btn with
    | .left => ({ s with draw_flag := false }, [])
    | .right => ({ s with erase_flag := false }, [])
    | .other => (s, [])
  | .mousemotion px py =>
    let x := scale_div c px
    let y := scale_div c py
    let s1 := if s.draw_flag then { s with grid := set_cell c.height s.grid x y true } else s
    let o1 := if s.draw_flag then [Notif.pixel x y c.fg_color] else []
    let s2 := if s1.erase_flag then { s1 with grid := set_cell c.height s1.grid x y false } else s1
    let o2 := if s1.erase_flag then [Notif.pixel x y c.bg_color] else []
    (s2, o1 ++ o2)
  | .window we =>
    match we with
    | .enter => ({ s with cp := { s.cp with active := true } }, [])
    | .leave => ({ s with cp := { s.cp with active := false } }, [])
    | .other => (s, [])

/-- `handle_events` from src/main.c: drains the polled event batch in
order, but returns immediately (leaving the rest of the batch
unprocessed) after an `SDL_QUIT` or an escape key. -/
def handle_events (c : Config) (rnd : Nat → Nat → Bool) :
    SimState → List Event → SimState × List Notif
  | s, [] => (s, [])
  | s, e :: es =>
    let r1 := handle_event c rnd s e
    match e with
    | .quit => r1
    | .keydown .escape => r1
    | _ =>
      let r2 := handle_events c rnd r1.1 es
      (r2.1, r1.2 ++ r2.2)

/-- `draw_cursor_pixel` from src/main.c, with the mouse position
`(mx, my)` passed in for `SDL_GetMouseState`: returns the updated ghost
cursor and the emitted single-pixel notifications. -/
def draw_cursor_pixel (c : Config) (grid : List Bool) (cp : CursorPixel) (mx my : Nat) :
    CursorPixel × List Notif :=
  if cp.active = false then
    (cp, [.pixel cp.prev_x cp.prev_y (if cp.prev_state then c.fg_color else c.bg_color)])
  else
    let x := scale_div c mx
    let y := scale_div c my
    let o1 := if get_cell c.height grid x y = false then [Notif.pixel x y c.cp_color] else []
    let o2 :=
      if x ≠ cp.prev_x ∨ y ≠ cp.prev_y then
        [Notif.pixel cp.prev_x cp.prev_y (if cp.prev_state then c.fg_color else c.bg_color)]
      else []
    ({ x := x, y := y, prev_x := x, prev_y := y,
       prev_state := get_cell c.height grid x y, active := cp.active }, o1 ++ o2)

/-- The body of the main loop of src/main.c (one iteration, entered when
`state != QUIT`): drain events; if now paused, only refresh the ghost
cursor; otherwise advance one generation and redraw the whole screen. -/
def main_loop_body (c : Config) (rnd : Nat → Nat → Bool) (events : List Event)
    (mx my : Nat) (s : SimState) : SimState × List Notif :=
  let r1 := handle_events c rnd s events
  if r1.1.state = .PAUSED then
    let r2 := draw_cursor_pixel c r1.1.grid r1.1.cp mx my
    ({ r1.1 with cp := r2.1 }, r1.2 ++ r2.2)
  else
    let g2 := update_grid c.width c.height r1.1.grid r1.1.next_gen
    ({ r1.1 with grid := g2, next_gen := g2 }, r1.2 ++ [.fullRedraw])

/-- One test of the `while (state != QUIT)` condition followed (when it
holds) by the loop body: when the state is already `QUIT` the loop exits
and nothing at all happens. -/
def main_loop_step (c : Config) (rnd : Nat → Nat → Bool) (events : List Event)
    (mx my : Nat) (s : SimState) : SimState × List Notif :=
  if s.state = .QUIT then (s, []) else main_loop_body c rnd events mx my s

/-- The program state right after startup in `main`: `state = RUNNING`
(global initializer), both grid buffers zeroed, the static draw/erase
flags false, and the global `cp` initializer. -/
def init_sim (c : Config) : SimState :=
  { state := .RUNNING,
    grid := List.replicate (c.width * c.height) false,
    next_gen := List.replicate (c.width * c.height) false,
    draw_flag := false,
    erase_flag := false,
    cp := { x := 0, y := 0, prev_x := 0, prev_y := 0, prev_state := false, active := false } }

/-! ## Claim theorems about the run state machine and editor -/

/-- A 5×3 configuration (scale 1, default colors) for concrete runs. -/
def cfg53 : Config :=
  { width := 5, height := 3, scale := 1, delay := 0,
    bg_color := 0x000000FF, fg_color := 0xFFFFFFFF, cp_color := 0x444444FF }

/-- A running simulation state on `cfg53` holding the blinker grid. -/
def s53 : SimState :=
  { state := .RUNNING, grid := blinker_grid, next_gen := List.replicate 15 false,
    draw_flag := false, erase_flag := false,
    cp := { x := 0, y := 0, prev_x := 0, prev_y := 0, prev_state := false, active := false } }

/-- C5 counterexample: processing a quit event does yield `QUIT`, but the
same main-loop iteration still performs a simulation step — the grid after
the iteration that reaches `QUIT` differs from the grid before it (the
blinker has advanced), so "from Quit no further simulation stepping
occurs" fails as stated. -/
theorem quit_still_steps_counterexample :
    (main_loop_step cfg53 (fun _ _ => false) [Event.quit] 0 0 s53).1.state = RunState.QUIT ∧
    (main_loop_step cfg53 (fun _ _ => false) [Event.quit] 0 0 s53).1.grid ≠ s53.grid := by
  decide

/-- C5 (amended): the run state starts as `RUNNING`; a space keydown
toggles `RUNNING` to `PAUSED` and `PAUSED` back to `RUNNING`; a window
quit or escape keydown from `RUNNING` or `PAUSED` yields `QUIT`; once a
main-loop iteration begins in `QUIT` the loop exits, so no further event
processing, state transitions or stepping occur; however, the iteration
in which `QUIT` is entered still performs one final grid update (and full
redraw) before the loop condition is re-tested. -/
theorem run_state_machine :
    (∀ c : Config, (init_sim c).state = RunState.RUNNING) ∧
    (∀ (c : Config) (rnd : Nat → Nat → Bool) (s : SimState), s.state = RunState.RUNNING →
      (handle_event c rnd s (.keydown .space)).1.state = RunState.PAUSED) ∧
    (∀ (c : Config) (rnd : Nat → Nat → Bool) (s : SimState), s.state = RunState.PAUSED →
      (handle_event c rnd s (.keydown .space)).1.state = RunState.RUNNING) ∧
    (∀ (c : Config) (rnd : Nat → Nat → Bool) (s : SimState),
      s.state = RunState.RUNNING ∨ s.state = RunState.PAUSED →
      (handle_event c rnd s .quit).1.state = RunState.QUIT ∧
      (handle_event c rnd s (.keydown .escape)).1.state = RunState.QUIT) ∧
    (∀ (c : Config) (rnd : Nat → Nat → Bool) (events : List Event) (mx my : Nat)
      (s : SimState), s.state = RunState.QUIT →
      main_loop_step c rnd events mx my s = (s, [])) ∧
    (∀ (c : Config) (rnd : Nat → Nat → Bool) (mx my : Nat) (s : SimState),
      s.state ≠ RunState.QUIT →
      (main_loop_body c rnd [Event.quit] mx my s).1.state = RunState.QUIT ∧
      (main_loop_body c rnd [Event.quit] mx my s).1.grid
        = update_grid c.width c.height s.grid s.next_gen) := by
  refine ⟨fun c => rfl, ?_, ?_, ?_, ?_, ?_⟩
  · intro c rnd s hs
    simp [handle_event, hs]
  · intro c rnd s hs
    simp [handle_event, hs]
  · intro c rnd s hs
    constructor <;> simp [handle_event]
  · intro c rnd events mx my s hs
    simp [main_loop_step, hs]
  · intro c rnd mx my s hs
    constructor <;> simp [main_loop_body, handle_events, handle_event]

theorem run_state_machine_witness :
    s53.state = RunState.RUNNING ∧
    (handle_event cfg53 (fun _ _ => false) s53 (.keydown .space)).1.state = RunState.PAUSED :=
  ⟨by decide, run_state_machine.2.1 cfg53 (fun _ _ => false) s53 (by decide)⟩

/-- C6: with pointer focus active, `draw_cursor_pixel` emits a
ghost-color notification for the cursor's grid cell only if that cell is
currently dead, and whenever the cursor cell differs from the remembered
previous cell it also emits a notification restoring the previous cell to
its snapshot color (foreground if the snapshot alive flag is set, else
background). -/
theorem ghost_cursor_safe (c : Config) (grid : List Bool) (cp : CursorPixel) (mx my : Nat)
    (hact : cp.active = true) :
    (Notif.pixel (scale_div c mx) (scale_div c my) c.cp_color
        ∈ (draw_cursor_pixel c grid cp mx my).2 →
      get_cell c.height grid (scale_div c mx) (scale_div c my) = false) ∧
    ((scale_div c mx ≠ cp.prev_x ∨ scale_div c my ≠ cp.prev_y) →
      Notif.pixel cp.prev_x cp.prev_y (if cp.prev_state then c.fg_color else c.bg_color)
        ∈ (draw_cursor_pixel c grid cp mx my).2) := by
  unfold draw_cursor_pixel
  rw [if_neg (by simp [hact])]
  constructor
  · intro hmem
    by_cases hg : get_cell c.height grid (scale_div c mx) (scale_div c my) = false
    · exact hg
    · exfalso
      by_cases hmv : (scale_div c mx ≠ cp.prev_x ∨ scale_div c my ≠ cp.prev_y)
      · simp only [hg, if_neg, if_pos hmv, List.nil_append] at hmem
        simp at hmem
        rcases hmv with hv | hv
        · exact hv hmem.1
        · exact hv hmem.2.1
      · simp [hg, hmv] at hmem
  · intro hmv
    simp [hmv]

/-- An active ghost cursor whose remembered previous cell is `(1, 1)`. -/
def cpw : CursorPixel :=
  { x := 0, y := 0, prev_x := 1, prev_y := 1, prev_state := true, active := true }

theorem ghost_cursor_safe_witness :
    cpw.active = true ∧
    ((Notif.pixel (scale_div cfg53 0) (scale_div cfg53 0) cfg53.cp_color
        ∈ (draw_cursor_pixel cfg53 blinker_grid cpw 0 0).2 →
      get_cell cfg53.height blinker_grid (scale_div cfg53 0) (scale_div cfg53 0) = false) ∧
    ((scale_div cfg53 0 ≠ cpw.prev_x ∨ scale_div cfg53 0 ≠ cpw.prev_y) →
      Notif.pixel cpw.prev_x cpw.prev_y (if cpw.prev_state then cfg53.fg_color else cfg53.bg_color)
        ∈ (draw_cursor_pixel cfg53 blinker_grid cpw 0 0).2)) :=
  ⟨rfl, ghost_cursor_safe cfg53 blinker_grid cpw 0 0 rfl⟩

/-- C7: a mouse-motion event processed while both the drawing flag and
the erasing flag are false leaves the whole program state (in particular
every grid cell) unchanged and emits no render notification. -/
theorem motion_without_flags_noop (c : Config) (rnd : Nat → Nat → Bool) (s : SimState)
    (px py : Nat) (hd : s.draw_flag = false) (he : s.erase_flag = false) :
    handle_event c rnd s (.mousemotion px py) = (s, []) := by
  simp [handle_event, hd, he]

theorem motion_without_flags_noop_witness :
    s53.draw_flag = false ∧ s53.erase_flag = false ∧
    handle_event cfg53 (fun _ _ => false) s53 (.mousemotion 2 1) = (s53, []) :=
  ⟨by decide, by decide,
   motion_without_flags_noop cfg53 (fun _ _ => false) s53 2 1 (by decide) (by decide)⟩

/-! ## Startup configuration (claim C9) -/

/-- One result of the `getopt` loop in `set_config` from src/main.c, with
the option argument already parsed: `getopt` itself (an external libc
collaborator) yields the option character and `optarg`; `atoi` / `atof` /
`strtoul` turn the argument into the numeric value carried here.
`missing_arg` is `getopt` returning `':'` (option lacking its required
argument, thanks to the leading `':'` in the option string) and
`unknown_opt` is `getopt` returning `'?'`. -/
inductive OptTok
  | ow (v : Int)
  | oh (v : Int)
  | os (v : Rat)
  | od (v : Int)
  | ob (v : Nat)
  | ofg (v : Nat)
  | oc (v : Nat)
  | missing_arg
  | unknown_opt
deriving DecidableEq, Repr

/-- The `switch` of `set_config` from src/main.c over the stream of
`getopt` results: width/height/scale must parse positive, delay
non-negative, the three colors are taken as-is; `':'` and `'?'` are
fatal.  Returns the error message printed to standard error, or the
updated configuration. -/
def set_config (cfg : Config) : List OptTok → Except String Config
  | [] => .ok cfg
  | t :: ts =>
    match t with
    | .ow v =>
        if v ≤ 0 then .error "Invalid width value"
        else set_config { cfg with width := v.toNat } ts
    | .oh v =>
        if v ≤ 0 then .error "Invalid height value"
        else set_config { cfg with height := v.toNat } ts
    | .os v =>
        if v ≤ 0 then .error "Invalid scale value"
        else set_config { cfg with scale := v } ts
    | .od v =>
        if v < 0 then .error "Invalid delay value"
        else set_config { cfg with delay := v } ts
    | .ob v => set_config { cfg with bg_color := v } ts
    | .ofg v => set_config { cfg with fg_color := v } ts
    | .oc v => set_config { cfg with cp_color := v } ts
    | .missing_arg => .error "Option requires a value"
    | .unknown_opt => .error "Unknown option"

/-- The malformed options of claim C9: non-positive width/height/scale,
negative delay, an option missing its argument, an unknown option. -/
def bad_opt : OptTok → Bool
  | .ow v => v ≤ 0
  | .oh v => v ≤ 0
  | .os v => v ≤ 0
  | .od v => v < 0
  | .missing_arg => true
  | .unknown_opt => true
  | _ => false

/-- Startup as in `main` from src/main.c: if `set_config` fails, the
process prints the error and exits with `EXIT_FAILURE` before the grid
buffers are allocated; otherwise the two zeroed grid buffers of
`width * height` cells are created. -/
def main_startup (cfg : Config) (toks : List OptTok) :
    Except String (Config × List Bool × List Bool) :=
  match set_config cfg toks with
  | .error e => .error e
  | .ok c =>
      .ok (c, List.replicate (c.width * c.height) false,
              List.replicate (c.width * c.height) false)

/-- C9: any command line whose `getopt` stream contains a malformed
option (non-positive width/height/scale, negative delay, missing
argument, unknown option) makes `set_config` fail with a non-empty error
message, and startup stops with that error — exiting with failure before
any grid buffer is created. -/
theorem bad_option_fatal (cfg : Config) (toks : List OptTok)
    (hbad : ∃ t ∈ toks, bad_opt t = true) :
    ∃ msg, msg ≠ "" ∧ set_config cfg toks = .error msg ∧
      main_startup cfg toks = .error msg := by
  induction toks generalizing cfg with
  | nil => simp at hbad
  | cons t ts ih =>
      have step : ∀ msg, set_config cfg (t :: ts) = .error msg →
          main_startup cfg (t :: ts) = .error msg := by
        intro msg he
        unfold main_startup
        rw [he]
      rcases hbad with ⟨t0, ht0, hb0⟩
      rcases List.mem_cons.mp ht0 with rfl | hmem
      · cases t0 with
        | ow v =>
            refine ⟨"Invalid width value", by decide, ?_, ?_⟩ <;>
              simp [set_config, main_startup, show v ≤ 0 by simpa [bad_opt] using hb0]
        | oh v =>
            refine ⟨"Invalid height value", by decide, ?_, ?_⟩ <;>
              simp [set_config, main_startup, show v ≤ 0 by simpa [bad_opt] using hb0]
        | os v =>
            refine ⟨"Invalid scale value", by decide, ?_, ?_⟩ <;>
              simp [set_config, main_startup, show v ≤ 0 by simpa [bad_opt] using hb0]
        | od v =>
            refine ⟨"Invalid delay value", by decide, ?_, ?_⟩ <;>
              simp [set_config, main_startup, show v < 0 by simpa [bad_opt] using hb0]
        | ob v => simp [bad_opt] at hb0
        | ofg v => simp [bad_opt] at hb0
        | oc v => simp [bad_opt] at hb0
        | missing_arg =>
            exact ⟨"Option requires a value", by decide, rfl, rfl⟩
        | unknown_opt =>
            exact ⟨"Unknown option", by decide, rfl, rfl⟩
      · have hbad' : ∃ t0 ∈ ts, bad_opt t0 = true := ⟨t0, hmem, hb0⟩
        cases t with
        | ow v =>
            by_cases hv : v ≤ 0
            · refine ⟨"Invalid width value", by decide, ?_, ?_⟩ <;>
                simp [set_config, main_startup, hv]
            · obtain ⟨msg, hm, hsc, _⟩ := ih { cfg with width := v.toNat } hbad'
              refine ⟨msg, hm, ?_, ?_⟩
              · simpa [set_config, hv] using hsc
              · exact step msg (by simpa [set_config, hv] using hsc)
        | oh v =>
            by_cases hv : v ≤ 0
            · refine ⟨"Invalid height value", by decide, ?_, ?_⟩ <;>
                simp [set_config, main_startup, hv]
            · obtain ⟨msg, hm, hsc, _⟩ := ih { cfg with height := v.toNat } hbad'
              refine ⟨msg, hm, ?_, ?_⟩
              · simpa [set_config, hv] using hsc
              · exact step msg (by simpa [set_config, hv] using hsc)
        | os v =>
            by_cases hv : v ≤ 0
            · refine ⟨"Invalid scale value", by decide, ?_, ?_⟩ <;>
                simp [set_config, main_startup, hv]
            · obtain ⟨msg, hm, hsc, _⟩ := ih { cfg with scale := v } hbad'
              refine ⟨msg, hm, ?_, ?_⟩
              · simpa [set_config, hv] using hsc
              · exact step msg (by simpa [set_config, hv] using hsc)
        | od v =>
            by_cases hv : v < 0
            · refine ⟨"Invalid delay value", by decide, ?_, ?_⟩ <;>
                simp [set_config, main_startup, hv]
            · obtain ⟨msg, hm, hsc, _⟩ := ih { cfg with delay := v } hbad'
              refine ⟨msg, hm, ?_, ?_⟩
              · simpa [set_config, hv] using hsc
              · exact step msg (by simpa [set_config, hv] using hsc)
        | ob v =>
            obtain ⟨msg, hm, hsc, _⟩ := ih { cfg with bg_color := v } hbad'
            exact ⟨msg, hm, hsc, step msg hsc⟩
        | ofg v =>
            obtain ⟨msg, hm, hsc, _⟩ := ih { cfg with fg_color := v } hbad'
            exact ⟨msg, hm, hsc, step msg hsc⟩
        | oc v =>
            obtain ⟨msg, hm, hsc, _⟩ := ih { cfg with cp_color := v } hbad'
            exact ⟨msg, hm, hsc, step msg hsc⟩
        | missing_arg =>
            exact ⟨"Option requires a value", by decide, rfl, rfl⟩
        | unknown_opt =>
            exact ⟨"Unknown option", by decide, rfl, rfl⟩

theorem bad_option_fatal_witness :
    (∃ t ∈ [OptTok.ob 0xFF0000FF, OptTok.ow (-3)], bad_opt t = true) ∧
    (∃ msg, msg ≠ "" ∧
      set_config defaultConfig [OptTok.ob 0xFF0000FF, OptTok.ow (-3)] = .error msg ∧
      main_startup defaultConfig [OptTok.ob 0xFF0000FF, OptTok.ow (-3)] = .error msg) :=
  ⟨by decide,
   bad_option_fatal defaultConfig [OptTok.ob 0xFF0000FF, OptTok.ow (-3)] (by decide)⟩

end GameOfLife
